import Mathlib

/-!
Shallow embedding of `src/frontend/src/App.jsx` (the review-queue
frontend of pr-reviewer-bot) and proofs of its specified properties.

The component keeps one piece of state, `reviews` (initially `[]`), and
performs three operations against the backend through axios:
`fetchReviews` (GET /reviews), `handleApprove` (POST approve then an
un-awaited `fetchReviews()`), and `handleReject` (symmetric).  Network
outcomes are modelled by a `Backend` record giving the result of each
call; JS event-loop ordering is modelled by explicit event traces.
-/

/-- A review item as delivered by the backend in the GET /reviews body
(fields read by the component: id, pr_number, branch, status, ai_feedback). -/
structure ReviewItem where
  id : Nat
  pr_number : Int
  branch : String
  status : String
  ai_feedback : String
deriving DecidableEq, Repr

/-- Failure of an axios request: transport-level failure, or the backend
responding with a non-2xx status (axios rejects its promise in both cases,
exposing the response status in the latter). -/
inductive AxiosFailure where
  | networkError : AxiosFailure
  | httpStatus : Nat → AxiosFailure
deriving DecidableEq, Repr

/-- The backend as observed through axios: the outcome of each network call
the component can issue during the run under consideration. -/
structure Backend where
  listResult : Except AxiosFailure (List ReviewItem)
  approveResult : Nat → Except AxiosFailure Unit
  rejectResult : Nat → Except AxiosFailure Unit

/-- A console log event emitted by the component. -/
inductive LogEvent where
  | fetchError : AxiosFailure → LogEvent
deriving DecidableEq, Repr

/-- The `fetchReviews` function (App.jsx lines 15-22): awaits GET /reviews
inside try/catch; on success it stores the response body wholesale via
`setReviews(res.data)`; on failure it logs the error and leaves the state
unchanged.  Given the current `reviews` state and the GET outcome, returns
the new state together with the emitted log; the catch swallows the error,
so the function never rejects. -/
def fetchReviews (st : List ReviewItem) (res : Except AxiosFailure (List ReviewItem)) :
    List ReviewItem × List LogEvent :=
  match res with
  | .ok data => (data, [])
  | .error e => (st, [LogEvent.fetchError e])

/-- The `handleApprove` function (App.jsx lines 24-27): `await axios.post`
on the approve route; if the POST rejects, the await re-throws and the
handler's promise rejects with that error, and `fetchReviews()` is never
reached; on success `fetchReviews()` runs (invoked without await).
Returns the handler promise outcome, the eventual reviews state, and the log. -/
def handleApprove (b : Backend) (st : List ReviewItem) (id : Nat) :
    Except AxiosFailure Unit × List ReviewItem × List LogEvent :=
  match b.approveResult id with
  | .error e => (Except.error e, st, [])
  | .ok _ =>
      let r := fetchReviews st b.listResult
      (Except.ok (), r.1, r.2)

/-- The `handleReject` function (App.jsx lines 29-32), symmetric to
`handleApprove` on the reject route. -/
def handleReject (b : Backend) (st : List ReviewItem) (id : Nat) :
    Except AxiosFailure Unit × List ReviewItem × List LogEvent :=
  match b.rejectResult id with
  | .error e => (Except.error e, st, [])
  | .ok _ =>
      let r := fetchReviews st b.listResult
      (Except.ok (), r.1, r.2)

/-- Initial value of the `reviews` state: `useState([])` (App.jsx line 9). -/
def initialReviews : List ReviewItem := []

/-- Events observable during one handler run, in program order: network
calls being initiated and completing, and the handler promise settling. -/
inductive Ev where
  | approveCallStart : Nat → Ev
  | approveCallDone : Nat → Ev
  | rejectCallStart : Nat → Ev
  | rejectCallDone : Nat → Ev
  | listCallStart : Ev
  | listCallDone : Ev
  | handlerSettled : Bool → Ev
deriving DecidableEq, Repr

/-- The event trace of one `handleApprove(id)` call under JS event-loop
semantics: the awaited POST completes before `fetchReviews()` is invoked;
`fetchReviews()` is not awaited, so its GET is initiated but the handler's
promise settles before that GET completes.  If the POST rejects, the
handler settles rejected and no GET is ever initiated. -/
def handleApproveTrace (b : Backend) (id : Nat) : List Ev :=
  match b.approveResult id with
  | .error _ => [Ev.approveCallStart id, Ev.handlerSettled false]
  | .ok _ => [Ev.approveCallStart id, Ev.approveCallDone id, Ev.listCallStart,
      Ev.handlerSettled true, Ev.listCallDone]

/-- The event trace of one `handleReject(id)` call, symmetric to
`handleApproveTrace`. -/
def handleRejectTrace (b : Backend) (id : Nat) : List Ev :=
  match b.rejectResult id with
  | .error _ => [Ev.rejectCallStart id, Ev.handlerSettled false]
  | .ok _ => [Ev.rejectCallStart id, Ev.rejectCallDone id, Ev.listCallStart,
      Ev.handlerSettled true, Ev.listCallDone]

/-- One action button of a rendered card, carrying the id its onClick
handler targets. -/
inductive ActionButton where
  | approve : Nat → ActionButton
  | reject : Nat → ActionButton
deriving DecidableEq, Repr

/-- The action controls rendered for one review card (App.jsx lines 66-94):
the JSX renders the block containing both buttons exactly when
`review.status === "PENDING"`, wiring them to `handleApprove(review.id)`
and `handleReject(review.id)`. -/
def cardButtons (r : ReviewItem) : List ActionButton :=
  if r.status = "PENDING" then [ActionButton.approve r.id, ActionButton.reject r.id]
  else []

/-- One rendered review card (App.jsx lines 38-95): the displayed fields
and its action controls. -/
structure RenderedCard where
  shownPr : Int
  shownBranch : String
  shownStatus : String
  shownFeedback : String
  buttons : List ActionButton
deriving DecidableEq, Repr

/-- Rendering of one review item into a card. -/
def renderCard (r : ReviewItem) : RenderedCard :=
  ⟨r.pr_number, r.branch, r.status, r.ai_feedback, cardButtons r⟩

/-- The rendered queue: `reviews.map(review => ...)` (App.jsx line 38). -/
def renderApp (reviews : List ReviewItem) : List RenderedCard :=
  reviews.map renderCard

/-- The operations that can touch the `reviews` state. -/
inductive Op where
  | refresh : Op
  | approveItem : Nat → Op
  | rejectItem : Nat → Op
deriving DecidableEq, Repr

/-- The `reviews` state after one operation against backend `b`. -/
def stepQueue (b : Backend) (st : List ReviewItem) : Op → List ReviewItem
  | Op.refresh => (fetchReviews st b.listResult).1
  | Op.approveItem id => (handleApprove b st id).2.1
  | Op.rejectItem id => (handleReject b st id).2.1

/-- Modelled from the spec: the error taxonomy of section 7.  The repository
has no error-class definitions under src/ (the backend service is not in the
sources); the spec maps a mutation on an id unknown to the backend to
`NotFoundError`, any other non-success response to `BackendError`, and
transport failure to `NetworkError`.  An unknown id draws a 404 response. -/
inductive ErrorKind where
  | notFoundError : ErrorKind
  | backendError : ErrorKind
  | networkError : ErrorKind
deriving DecidableEq, Repr

/-- Modelled from the spec: classification of a surfaced axios failure into
the spec's error taxonomy (404 marks an unknown id). -/
def classifyFailure : AxiosFailure → ErrorKind
  | AxiosFailure.networkError => ErrorKind.networkError
  | AxiosFailure.httpStatus s => if s = 404 then ErrorKind.notFoundError
      else ErrorKind.backendError

/-- Modelled from the spec: the backend's response to a mutation POST, which
is not under src/.  It answers 404 when the id is unknown, succeeds (2xx)
on a known id when no other failure occurs, and answers with the given
non-success outcome otherwise. -/
def specMutationResult (knownIds : List Nat) (otherFailure : Option AxiosFailure)
    (id : Nat) : Except AxiosFailure Unit :=
  if id ∈ knownIds then
    match otherFailure with
    | none => Except.ok ()
    | some e => Except.error e
  else Except.error (AxiosFailure.httpStatus 404)

/-- Concrete review item used by witnesses (spec section 8, scenario A). -/
def sampleItem : ReviewItem := ⟨1, 42, "feature-x", "PENDING", "Looks fine"⟩

/-- The sample item after the backend approves it (scenario B). -/
def approvedItem : ReviewItem := ⟨1, 42, "feature-x", "APPROVED", "Looks fine"⟩

/-- A backend on which every call fails with a 500 response. -/
def failingBackend : Backend :=
  ⟨Except.error (AxiosFailure.httpStatus 500),
   fun _ => Except.error (AxiosFailure.httpStatus 500),
   fun _ => Except.error (AxiosFailure.httpStatus 500)⟩

/-- A backend on which every call succeeds, listing the approved item. -/
def okBackend : Backend :=
  ⟨Except.ok [approvedItem], fun _ => Except.ok (), fun _ => Except.ok ()⟩

/-- A backend whose mutations succeed but whose GET /reviews fails. -/
def mutOkFetchFailBackend : Backend :=
  ⟨Except.error AxiosFailure.networkError,
   fun _ => Except.ok (), fun _ => Except.ok ()⟩

/-- A spec-modelled backend knowing only id 1, with no other failure. -/
def specBackend : Backend :=
  ⟨Except.ok [sampleItem], specMutationResult [1] none, specMutationResult [1] none⟩

/-- A spec-modelled backend knowing only id 1, failing mutations with 500. -/
def specFailBackend : Backend :=
  ⟨Except.ok [sampleItem],
   specMutationResult [1] (some (AxiosFailure.httpStatus 500)),
   specMutationResult [1] (some (AxiosFailure.httpStatus 500))⟩

/-- C1: after a successful `listReviews()` call, the queue stored by
`fetchReviews` equals exactly the sequence returned by the backend, in the
same order, with no items added or dropped (the response body is stored
wholesale as the new queue). -/
theorem refresh_stores_response_wholesale (st data : List ReviewItem) :
    (fetchReviews st (Except.ok data)).1 = data := rfl

/-- C2: a rendered card carries both action buttons (approve and reject,
wired to the item's id) exactly when the item's status is PENDING, and
carries no action button for any other status. -/
theorem controls_iff_pending (r : ReviewItem) :
    ((renderCard r).buttons = [ActionButton.approve r.id, ActionButton.reject r.id] ↔
      r.status = "PENDING") ∧
    (¬ r.status = "PENDING" → (renderCard r).buttons = []) := by
  by_cases h : r.status = "PENDING" <;> simp [renderCard, cardButtons, h]

/-- C3: when the mutation POST of `handleApprove(id)` (or `handleReject(id)`)
fails, the error propagates to the caller, the queue is unchanged, no log is
emitted, and no refresh GET is ever initiated. -/
theorem failed_mutation_propagates (b : Backend) (st : List ReviewItem)
    (id : Nat) (e : AxiosFailure) :
    (b.approveResult id = Except.error e →
      handleApprove b st id = (Except.error e, st, []) ∧
      Ev.listCallStart ∉ handleApproveTrace b id) ∧
    (b.rejectResult id = Except.error e →
      handleReject b st id = (Except.error e, st, []) ∧
      Ev.listCallStart ∉ handleRejectTrace b id) := by
  constructor <;> intro h <;>
    simp [handleApprove, handleReject, handleApproveTrace, handleRejectTrace, h]

/-- Witness for C3 at a concrete failing backend. -/
theorem failed_mutation_propagates_witness :
    handleApprove failingBackend [sampleItem] 1 =
      (Except.error (AxiosFailure.httpStatus 500), [sampleItem], []) ∧
    Ev.listCallStart ∉ handleApproveTrace failingBackend 1 :=
  (failed_mutation_propagates failingBackend [sampleItem] 1
    (AxiosFailure.httpStatus 500)).1 rfl

/-- C4: in every `handleApprove(id)` (or `handleReject(id)`) run, any refresh
GET that gets initiated is strictly preceded in the trace by both the
initiation and the completion of the mutation POST. -/
theorem mutation_before_refresh (b : Backend) (id j : Nat) :
    ((handleApproveTrace b id)[j]? = some Ev.listCallStart →
      ∃ k i, k < i ∧ i < j ∧
        (handleApproveTrace b id)[k]? = some (Ev.approveCallStart id) ∧
        (handleApproveTrace b id)[i]? = some (Ev.approveCallDone id)) ∧
    ((handleRejectTrace b id)[j]? = some Ev.listCallStart →
      ∃ k i, k < i ∧ i < j ∧
        (handleRejectTrace b id)[k]? = some (Ev.rejectCallStart id) ∧
        (handleRejectTrace b id)[i]? = some (Ev.rejectCallDone id)) := by
  constructor
  · intro hj
    cases h : b.approveResult id with
    | error e =>
        simp [handleApproveTrace, h] at hj
        rcases j with _ | _ | j <;> simp at hj
    | ok u =>
        simp only [handleApproveTrace, h] at hj ⊢
        rcases j with _ | _ | j <;> simp at hj
        exact ⟨0, 1, by omega, by omega, rfl, rfl⟩
  · intro hj
    cases h : b.rejectResult id with
    | error e =>
        simp [handleRejectTrace, h] at hj
        rcases j with _ | _ | j <;> simp at hj
    | ok u =>
        simp only [handleRejectTrace, h] at hj ⊢
        rcases j with _ | _ | j <;> simp at hj
        exact ⟨0, 1, by omega, by omega, rfl, rfl⟩

/-- Witness for C4 at a concrete all-success backend. -/
theorem mutation_before_refresh_witness :
    ∃ k i, k < i ∧ i < 2 ∧
      (handleApproveTrace okBackend 1)[k]? = some (Ev.approveCallStart 1) ∧
      (handleApproveTrace okBackend 1)[i]? = some (Ev.approveCallDone 1) :=
  (mutation_before_refresh okBackend 1 2).1 rfl

/-- C5: when the GET of `fetchReviews` fails, the call does not throw (it is
a total function returning normally), the failure is logged, and the queue
keeps its previous value; in particular after a successful first fetch and a
failed second fetch the queue still equals the first result. -/
theorem failed_refresh_keeps_queue (st : List ReviewItem) (e : AxiosFailure) :
    (fetchReviews st (Except.error e)).1 = st ∧
    (fetchReviews st (Except.error e)).2 = [LogEvent.fetchError e] ∧
    ∀ first : List ReviewItem,
      (fetchReviews (fetchReviews st (Except.ok first)).1 (Except.error e)).1 = first :=
  ⟨rfl, rfl, fun _ => rfl⟩

/-- C6: against the spec-modelled backend, a mutation on an id unknown to the
backend surfaces a failure classified as NotFoundError, and any other
non-success response surfaces a failure classified as BackendError, for both
the approve and the reject route. -/
theorem mutation_error_kinds (b : Backend) (st : List ReviewItem)
    (knownIds : List Nat) (otherFailure : Option AxiosFailure) (id : Nat)
    (hap : b.approveResult = specMutationResult knownIds otherFailure)
    (hrj : b.rejectResult = specMutationResult knownIds otherFailure) :
    (id ∉ knownIds →
      (handleApprove b st id).1 = Except.error (AxiosFailure.httpStatus 404) ∧
      (handleReject b st id).1 = Except.error (AxiosFailure.httpStatus 404) ∧
      classifyFailure (AxiosFailure.httpStatus 404) = ErrorKind.notFoundError) ∧
    (∀ s, id ∈ knownIds → otherFailure = some (AxiosFailure.httpStatus s) →
      s ≠ 404 →
      (handleApprove b st id).1 = Except.error (AxiosFailure.httpStatus s) ∧
      (handleReject b st id).1 = Except.error (AxiosFailure.httpStatus s) ∧
      classifyFailure (AxiosFailure.httpStatus s) = ErrorKind.backendError) := by
  constructor
  · intro h
    simp [handleApprove, handleReject, specMutationResult, hap, hrj, h,
      classifyFailure]
  · intro s hmem hof hs
    simp [handleApprove, handleReject, specMutationResult, hap, hrj, hmem, hof,
      classifyFailure, hs]

/-- Witness for C6: id 2 is unknown to a backend knowing only id 1 and draws
a NotFoundError; a 500 on the known id 1 draws a BackendError. -/
theorem mutation_error_kinds_witness :
    ((handleApprove specBackend [sampleItem] 2).1 =
        Except.error (AxiosFailure.httpStatus 404) ∧
      (handleReject specBackend [sampleItem] 2).1 =
        Except.error (AxiosFailure.httpStatus 404) ∧
      classifyFailure (AxiosFailure.httpStatus 404) = ErrorKind.notFoundError) ∧
    ((handleApprove specFailBackend [sampleItem] 1).1 =
        Except.error (AxiosFailure.httpStatus 500) ∧
      (handleReject specFailBackend [sampleItem] 1).1 =
        Except.error (AxiosFailure.httpStatus 500) ∧
      classifyFailure (AxiosFailure.httpStatus 500) = ErrorKind.backendError) :=
  ⟨(mutation_error_kinds specBackend [sampleItem] [1] none 2 rfl rfl).1
      (by decide),
   (mutation_error_kinds specFailBackend [sampleItem] [1]
      (some (AxiosFailure.httpStatus 500)) 1 rfl rfl).2 500 (by decide) rfl
      (by decide)⟩

/-- C7: every change to the queue state by any operation is a whole-value
replacement: the new queue is either the previous queue unchanged or exactly
a snapshot returned by the backend; and the initial queue is empty.  No
operation edits item fields or inserts or removes single items client-side. -/
theorem queue_whole_value_replacement (b : Backend) (st : List ReviewItem)
    (op : Op) :
    (stepQueue b st op = st ∨
      ∃ data, b.listResult = Except.ok data ∧ stepQueue b st op = data) ∧
    initialReviews = [] := by
  refine ⟨?_, rfl⟩
  cases op with
  | refresh =>
      cases h : b.listResult with
      | ok data => exact Or.inr ⟨data, rfl, by simp [stepQueue, fetchReviews, h]⟩
      | error e => exact Or.inl (by simp [stepQueue, fetchReviews, h])
  | approveItem id =>
      cases ha : b.approveResult id with
      | error e => exact Or.inl (by simp [stepQueue, handleApprove, ha])
      | ok u =>
          cases h : b.listResult with
          | ok data =>
              exact Or.inr ⟨data, rfl,
                by simp [stepQueue, handleApprove, fetchReviews, ha, h]⟩
          | error e =>
              exact Or.inl
                (by simp [stepQueue, handleApprove, fetchReviews, ha, h])
  | rejectItem id =>
      cases ha : b.rejectResult id with
      | error e => exact Or.inl (by simp [stepQueue, handleReject, ha])
      | ok u =>
          cases h : b.listResult with
          | ok data =>
              exact Or.inr ⟨data, rfl,
                by simp [stepQueue, handleReject, fetchReviews, ha, h]⟩
          | error e =>
              exact Or.inl
                (by simp [stepQueue, handleReject, fetchReviews, ha, h])

/-- C8: before the first fetch resolves, the queue observable is the empty
sequence (the `reviews` state starts as `[]`), and rendering it yields no
cards. -/
theorem initial_queue_empty :
    initialReviews = [] ∧ renderApp initialReviews = [] := ⟨rfl, rfl⟩

/-- C9: refreshing twice in a row against an unchanged backend outcome
yields the same queue after each call (refresh is idempotent). -/
theorem refresh_idempotent (st : List ReviewItem)
    (res : Except AxiosFailure (List ReviewItem)) :
    (fetchReviews (fetchReviews st res).1 res).1 = (fetchReviews st res).1 := by
  cases res <;> rfl

/-- C10: when the mutation of `handleApprove(id)` or `handleReject(id)`
succeeds but the follow-up GET fails, the handler's promise still resolves
successfully (the refresh failure is not propagated), it settles before the
refresh completes, the queue keeps the pre-mutation snapshot, and a later
successful refresh replaces it. -/
theorem mutation_resolves_without_refresh (b : Backend) (st : List ReviewItem)
    (id : Nat) (e : AxiosFailure)
    (hma : b.approveResult id = Except.ok ())
    (hmr : b.rejectResult id = Except.ok ())
    (hlist : b.listResult = Except.error e) :
    (handleApprove b st id).1 = Except.ok () ∧
    (handleApprove b st id).2.1 = st ∧
    (handleReject b st id).1 = Except.ok () ∧
    (handleReject b st id).2.1 = st ∧
    (∃ i j : Nat, i < j ∧
      (handleApproveTrace b id)[i]? = some (Ev.handlerSettled true) ∧
      (handleApproveTrace b id)[j]? = some Ev.listCallDone) ∧
    ∀ data, (fetchReviews (handleApprove b st id).2.1 (Except.ok data)).1 = data := by
  refine ⟨?_, ?_, ?_, ?_, ⟨3, 4, by omega, ?_, ?_⟩, fun data => rfl⟩ <;>
    simp [handleApprove, handleReject, handleApproveTrace, fetchReviews,
      hma, hmr, hlist]

/-- Witness for C10 at a concrete backend whose mutations succeed but whose
GET fails. -/
theorem mutation_resolves_without_refresh_witness :
    (handleApprove mutOkFetchFailBackend [sampleItem] 1).1 = Except.ok () ∧
    (handleApprove mutOkFetchFailBackend [sampleItem] 1).2.1 = [sampleItem] ∧
    (handleReject mutOkFetchFailBackend [sampleItem] 1).1 = Except.ok () ∧
    (handleReject mutOkFetchFailBackend [sampleItem] 1).2.1 = [sampleItem] ∧
    (∃ i j : Nat, i < j ∧
      (handleApproveTrace mutOkFetchFailBackend 1)[i]? =
        some (Ev.handlerSettled true) ∧
      (handleApproveTrace mutOkFetchFailBackend 1)[j]? = some Ev.listCallDone) ∧
    ∀ data,
      (fetchReviews (handleApprove mutOkFetchFailBackend [sampleItem] 1).2.1
        (Except.ok data)).1 = data :=
  mutation_resolves_without_refresh mutOkFetchFailBackend [sampleItem] 1
    AxiosFailure.networkError rfl rfl rfl
